import Mathlib

/-!
Verification of the HTAS scheduling and autoscaling control plane.

This file shallowly embeds the scheduling core of the repository:
the Task Packer (src/task_packer/task_packer.py), the Autoscaler
(src/autoscaler/autoscaler.py), the Resource Profiler
(src/resource_profiler/resource_profiler.py) and the Instance Cleaner
(src/instance_cleaner/instance_cleaner.py).  Python floats are modelled
as rationals, Kubernetes objects as plain structures, and the periodic
control loops as pure functions from the state fetched at the start of a
cycle to the API actions the cycle issues.  Fallible external calls are
modelled by explicit outcome parameters.
-/

namespace HTAS

/-- A NodeProfile spec as stored in the htas.cloud/v1 CRD and consumed by
the packer and the autoscaler.  The `runtime` field is optional because the
consumers read it with a dict `.get` carrying a default. -/
structure NodeP where
  instanceName : String
  cpuCapacity : ℚ
  memoryCapacity : ℚ
  cpuAvailable : ℚ
  memoryAvailable : ℚ
  runtime : Option ℕ
deriving DecidableEq

/-- A pod as seen by the packer and the autoscaler: its phase, the
scheduler tag, the workload-type label, the runtime annotation and the
parsed resource requests of its first container. -/
structure PodK where
  name : String
  phase : String
  schedulerName : String
  workloadLabel : Option String
  runtime : Option ℕ
  cpuReq : ℚ
  memReq : ℚ
deriving DecidableEq

/-- A VM flavor catalog entry (autoscaler.py VM_FLAVORS). -/
structure Flavor where
  name : String
  cpu : ℚ
  memory : ℚ
  price : ℚ
deriving DecidableEq

/-- get_pod_runtime: the runtime annotation in seconds, defaulting to 300
when absent or malformed. -/
def get_pod_runtime (p : PodK) : ℕ :=
  p.runtime.getD 300

/-- The suitability filter of bfd_algorithm: nodes whose available cpu and
memory both cover the pod requests, in profile insertion order. -/
def suitableNodes (p : PodK) (g : List NodeP) : List NodeP :=
  g.filter (fun n => decide (p.cpuReq ≤ n.cpuAvailable) && decide (p.memReq ≤ n.memoryAvailable))

/-- The sort relation of bfd_algorithm: ascending memoryAvailable.  The
Python list sort is stable, which insertion sort with this non-strict
relation reproduces. -/
def memLE (a b : NodeP) : Prop :=
  a.memoryAvailable ≤ b.memoryAvailable

instance : DecidableRel memLE :=
  fun a b => inferInstanceAs (Decidable (a.memoryAvailable ≤ b.memoryAvailable))

/-- bfd_algorithm (task_packer.py): filter the group to the nodes that fit
the pod request, sort ascending by memoryAvailable (stably), and return
the instanceName of the first, none if no node fits. -/
def bfd_algorithm (p : PodK) (node_group : List NodeP) : Option String :=
  ((List.insertionSort memLE (suitableNodes p node_group)).head?).map NodeP.instanceName

/-- The earliest element of minimal memoryAvailable, used to state what
bfd_algorithm returns.  On a tie the earlier element wins. -/
def firstMinByMem : List NodeP → Option NodeP
  | [] => none
  | x :: xs =>
    match firstMinByMem xs with
    | none => some x
    | some y => if x.memoryAvailable ≤ y.memoryAvailable then some x else some y

theorem firstMinByMem_eq_none {l : List NodeP} :
    firstMinByMem l = none ↔ l = [] := by
  cases l with
  | nil => simp [firstMinByMem]
  | cons x xs =>
    simp only [firstMinByMem]
    cases h : firstMinByMem xs with
    | none => simp
    | some y => by_cases hxy : x.memoryAvailable ≤ y.memoryAvailable <;> simp [hxy]

theorem head?_insertionSort_memLE (l : List NodeP) :
    (List.insertionSort memLE l).head? = firstMinByMem l := by
  induction l with
  | nil => rfl
  | cons x xs ih =>
    show (List.orderedInsert memLE x (List.insertionSort memLE xs)).head? = _
    cases h : List.insertionSort memLE xs with
    | nil =>
      rw [h] at ih
      simp only [List.head?] at ih
      simp [List.orderedInsert, firstMinByMem, ← ih]
    | cons y ys =>
      rw [h] at ih
      simp only [List.head?] at ih
      simp only [List.orderedInsert, firstMinByMem, ← ih]
      by_cases hxy : x.memoryAvailable ≤ y.memoryAvailable
      · simp [memLE, hxy]
      · simp [memLE, hxy]

theorem firstMinByMem_mem_min (l : List NodeP) :
    ∀ y, firstMinByMem l = some y →
      y ∈ l ∧ ∀ z ∈ l, y.memoryAvailable ≤ z.memoryAvailable := by
  induction l with
  | nil => intro y h; simp [firstMinByMem] at h
  | cons x xs ih =>
    intro y h
    simp only [firstMinByMem] at h
    cases hx : firstMinByMem xs with
    | none =>
      rw [hx] at h
      have hxs : xs = [] := firstMinByMem_eq_none.mp hx
      subst hxs
      simp at h
      subst h
      simp
    | some m =>
      rw [hx] at h
      have hm := ih m hx
      by_cases hle : x.memoryAvailable ≤ m.memoryAvailable
      · simp [hle] at h
        subst h
        refine ⟨List.mem_cons_self _ _, ?_⟩
        intro z hz
        rcases List.mem_cons.mp hz with rfl | hz
        · exact le_rfl
        · exact le_trans hle (hm.2 z hz)
      · simp [hle] at h
        subst h
        refine ⟨List.mem_cons_of_mem _ hm.1, ?_⟩
        intro z hz
        rcases List.mem_cons.mp hz with rfl | hz
        · exact (not_le.mp hle).le
        · exact hm.2 z hz

theorem bfd_algorithm_eq_firstMin (p : PodK) (g : List NodeP) :
    bfd_algorithm p g = (firstMinByMem (suitableNodes p g)).map NodeP.instanceName := by
  unfold bfd_algorithm
  rw [head?_insertionSort_memLE]

theorem suitableNodes_mem {p : PodK} {g : List NodeP} {n : NodeP}
    (h : n ∈ suitableNodes p g) :
    n ∈ g ∧ p.cpuReq ≤ n.cpuAvailable ∧ p.memReq ≤ n.memoryAvailable := by
  have := List.mem_filter.mp h
  refine ⟨this.1, ?_, ?_⟩
  · have := this.2
    simp only [Bool.and_eq_true, decide_eq_true_eq] at this
    exact this.1
  · have := this.2
    simp only [Bool.and_eq_true, decide_eq_true_eq] at this
    exact this.2

theorem bfd_algorithm_eq_none_iff (p : PodK) (g : List NodeP) :
    bfd_algorithm p g = none ↔ suitableNodes p g = [] := by
  rw [bfd_algorithm_eq_firstMin]
  rw [Option.map_eq_none']
  exact firstMinByMem_eq_none

/-- Claim C2: for every task with requests (c, m) and candidate node set N,
bfd_algorithm returns the instanceName of a node of
N2 = filter (cpuAvailable >= c and memoryAvailable >= m) N having minimal
memoryAvailable in N2, the tie between equal memoryAvailable falling to the
node earliest in insertion order (the firstMinByMem equation); it returns
none exactly when N2 is empty, and it never returns a node whose available
cpu or memory is below the request. -/
theorem claim_C2_bfd_best_fit (p : PodK) (g : List NodeP) :
    bfd_algorithm p g = (firstMinByMem (suitableNodes p g)).map NodeP.instanceName
    ∧ (∀ nm, bfd_algorithm p g = some nm →
        ∃ n, n ∈ g ∧ n ∈ suitableNodes p g ∧ nm = n.instanceName
          ∧ p.cpuReq ≤ n.cpuAvailable ∧ p.memReq ≤ n.memoryAvailable
          ∧ ∀ m ∈ suitableNodes p g, n.memoryAvailable ≤ m.memoryAvailable)
    ∧ (bfd_algorithm p g = none ↔ suitableNodes p g = []) := by
  refine ⟨bfd_algorithm_eq_firstMin p g, ?_, bfd_algorithm_eq_none_iff p g⟩
  intro nm h
  rw [bfd_algorithm_eq_firstMin] at h
  cases hf : firstMinByMem (suitableNodes p g) with
  | none => rw [hf] at h; simp at h
  | some n =>
    rw [hf] at h
    simp only [Option.map_some', Option.some_inj] at h
    have hn := firstMinByMem_mem_min _ n hf
    have hs := suitableNodes_mem hn.1
    exact ⟨n, hs.1, hn.1, h.symm, hs.2.1, hs.2.2, hn.2⟩

/-- The time bin of a node profile: runtime-age // scaling_cycle, the
runtime-age read with a dict default of scaling_cycle itself
(task_packer.py line 134). -/
def nodeBin (S : ℕ) (n : NodeP) : ℕ :=
  n.runtime.getD S / S

/-- The nodes of one bin, in profile insertion order (the order the
setdefault-append loop of time_bin_bfd builds). -/
def binNodes (S : ℕ) (g : List NodeP) (b : ℕ) : List NodeP :=
  g.filter (fun n => decide (nodeBin S n = b))

/-- The set of occupied bins, as a duplicate-free list of keys. -/
def binKeysOf (S : ℕ) (g : List NodeP) : List ℕ :=
  (g.map (nodeBin S)).dedup

/-- One probe of the time_bin_bfd loop body: the membership guard
`if b in bins` followed by BFD inside the bin. -/
def tryBin (p : PodK) (S : ℕ) (g : List NodeP) (b : ℕ) : Option String :=
  if b ∈ binKeysOf S g then bfd_algorithm p (binNodes S g b) else none

/-- task_bin = runtime // scaling_cycle of time_bin_bfd. -/
def taskBinOf (p : PodK) (S : ℕ) : ℕ :=
  get_pod_runtime p / S

/-- sorted([x for x in bins if x > bin_number]). -/
def gtBinsOf (p : PodK) (S : ℕ) (g : List NodeP) : List ℕ :=
  List.insertionSort (· ≤ ·) ((binKeysOf S g).filter (fun b => decide (taskBinOf p S < b)))

/-- sorted([x for x in bins if x < bin_number], reverse=True); the keys are
duplicate free, so descending order is the reverse of ascending order. -/
def ltBinsOf (p : PodK) (S : ℕ) (g : List NodeP) : List ℕ :=
  (List.insertionSort (· ≤ ·) ((binKeysOf S g).filter (fun b => decide (b < taskBinOf p S)))).reverse

/-- time_bin_bfd (task_packer.py): probe the bin of the task runtime, then
the strictly greater bins ascending, then the strictly smaller bins
descending, returning the first BFD hit. -/
def time_bin_bfd (p : PodK) (batch_node_group : List NodeP) (S : ℕ) : Option String :=
  (taskBinOf p S :: (gtBinsOf p S batch_node_group ++ ltBinsOf p S batch_node_group)).findSome?
    (tryBin p S batch_node_group)

theorem sorted_lt_insertionSort {l : List ℕ} (h : l.Nodup) :
    List.Sorted (· < ·) (List.insertionSort (· ≤ ·) l) := by
  have hs := List.sorted_insertionSort (· ≤ ·) l
  have hn : (List.insertionSort (· ≤ ·) l).Nodup :=
    ((List.perm_insertionSort (· ≤ ·) l).symm).nodup h
  exact (hs.and hn).imp (fun hab => lt_of_le_of_ne hab.1 hab.2)

theorem binKeysOf_nodup (S : ℕ) (g : List NodeP) : (binKeysOf S g).Nodup :=
  List.nodup_dedup _

theorem mem_gtBinsOf (p : PodK) (S : ℕ) (g : List NodeP) (b : ℕ) :
    b ∈ gtBinsOf p S g ↔ b ∈ binKeysOf S g ∧ taskBinOf p S < b := by
  unfold gtBinsOf
  rw [(List.perm_insertionSort (· ≤ ·) _).mem_iff, List.mem_filter]
  simp

theorem mem_ltBinsOf (p : PodK) (S : ℕ) (g : List NodeP) (b : ℕ) :
    b ∈ ltBinsOf p S g ↔ b ∈ binKeysOf S g ∧ b < taskBinOf p S := by
  unfold ltBinsOf
  rw [List.mem_reverse, (List.perm_insertionSort (· ≤ ·) _).mem_iff, List.mem_filter]
  simp

theorem sorted_gtBinsOf (p : PodK) (S : ℕ) (g : List NodeP) :
    List.Sorted (· < ·) (gtBinsOf p S g) :=
  sorted_lt_insertionSort ((binKeysOf_nodup S g).filter _)

theorem sorted_ltBinsOf (p : PodK) (S : ℕ) (g : List NodeP) :
    List.Sorted (· > ·) (ltBinsOf p S g) := by
  unfold ltBinsOf
  rw [List.Sorted, List.pairwise_reverse]
  exact sorted_lt_insertionSort ((binKeysOf_nodup S g).filter _)

/-- Claim C1: time_bin_bfd computes task_bin = runtime // scaling_cycle,
groups the batch nodes by node_bin = runtime-age // scaling_cycle, and
probes the bins in exactly the order task_bin, then the occupied bins
strictly greater than task_bin in ascending order, then the occupied bins
strictly less than task_bin in descending order, returning the first BFD
candidate across that iteration and none exactly when no occupied bin
yields a candidate. -/
theorem claim_C1_time_bin_search_order (p : PodK) (g : List NodeP) (S : ℕ) :
    time_bin_bfd p g S
      = (taskBinOf p S :: (gtBinsOf p S g ++ ltBinsOf p S g)).findSome? (tryBin p S g)
    ∧ List.Sorted (· < ·) (gtBinsOf p S g)
    ∧ (∀ b, b ∈ gtBinsOf p S g ↔ b ∈ binKeysOf S g ∧ taskBinOf p S < b)
    ∧ List.Sorted (· > ·) (ltBinsOf p S g)
    ∧ (∀ b, b ∈ ltBinsOf p S g ↔ b ∈ binKeysOf S g ∧ b < taskBinOf p S)
    ∧ (time_bin_bfd p g S = none ↔
        ∀ b ∈ binKeysOf S g, bfd_algorithm p (binNodes S g b) = none) := by
  refine ⟨rfl, sorted_gtBinsOf p S g, mem_gtBinsOf p S g, sorted_ltBinsOf p S g,
    mem_ltBinsOf p S g, ?_⟩
  constructor
  · intro hnone b hb
    have hL := List.findSome?_eq_none_iff.mp hnone
    rcases Nat.lt_trichotomy b (taskBinOf p S) with hlt | heq | hgt
    · have hmem : b ∈ ltBinsOf p S g := (mem_ltBinsOf p S g b).mpr ⟨hb, hlt⟩
      have := hL b (List.mem_cons_of_mem _ (List.mem_append_right _ hmem))
      simpa [tryBin, hb] using this
    · subst heq
      have := hL (taskBinOf p S) (List.mem_cons_self _ _)
      simpa [tryBin, hb] using this
    · have hmem : b ∈ gtBinsOf p S g := (mem_gtBinsOf p S g b).mpr ⟨hb, hgt⟩
      have := hL b (List.mem_cons_of_mem _ (List.mem_append_left _ hmem))
      simpa [tryBin, hb] using this
  · intro hall
    rw [show time_bin_bfd p g S
        = (taskBinOf p S :: (gtBinsOf p S g ++ ltBinsOf p S g)).findSome? (tryBin p S g)
      from rfl]
    rw [List.findSome?_eq_none_iff]
    intro x _
    by_cases hxk : x ∈ binKeysOf S g
    · simp [tryBin, hxk, hall x hxk]
    · exact if_neg hxk

/-- calculate_score (autoscaler.py lines 34-37). -/
def calculate_score (f : Flavor) (cpu_usage memory_usage : ℚ) : ℚ :=
  (0.5 * min (cpu_usage / f.cpu) 1 + 0.5 * min (memory_usage / f.memory) 1) / f.price

/-- The argmax scan inside greedy_autoscaling: best = None, best_score = -1,
replaced whenever a flavor scores strictly higher. -/
def pickBest (vm_flavors : List Flavor) (total_cpu total_mem : ℚ) : Option Flavor :=
  (vm_flavors.foldl
    (fun acc f =>
      let score := calculate_score f (min total_cpu f.cpu) (min total_mem f.memory)
      if score > acc.2 then (some f, score) else acc)
    ((none : Option Flavor), (-1 : ℚ))).1

/-- The while loop of greedy_autoscaling, with explicit fuel standing in for
the unbounded Python loop: while some total is positive, pick the best
scoring flavor, append it and subtract its capacity; stop when no flavor
scores above the running best_score, which restarts at -1 each round. -/
def greedyLoop (vm_flavors : List Flavor) : ℕ → ℚ → ℚ → List Flavor
  | 0, _, _ => []
  | fuel + 1, total_cpu, total_mem =>
    if total_cpu > 0 ∨ total_mem > 0 then
      match pickBest vm_flavors total_cpu total_mem with
      | none => []
      | some best =>
        best :: greedyLoop vm_flavors fuel (total_cpu - best.cpu) (total_mem - best.memory)
    else []

def totalCpu (pods : List PodK) : ℚ := (pods.map PodK.cpuReq).sum

def totalMem (pods : List PodK) : ℚ := (pods.map PodK.memReq).sum

/-- greedy_autoscaling (autoscaler.py lines 61-81): totals are recomputed
from the pending pods and fed to the loop. -/
def greedy_autoscaling (fuel : ℕ) (pending_pods : List PodK) (vm_flavors : List Flavor) :
    List Flavor :=
  greedyLoop vm_flavors fuel (totalCpu pending_pods) (totalMem pending_pods)

/-- The zero-bin test of batch_node_autoscaling (autoscaler.py line 87):
runtime read with default scaling_cycle, strictly below scaling_cycle. -/
def isZeroBin (S : ℕ) (n : NodeP) : Bool :=
  decide (n.runtime.getD S < S)

/-- batch_node_autoscaling (autoscaler.py lines 83-95).  The zero-bin
capacities are subtracted from local totals used only by the skip test; the
greedy call receives the pods again and recomputes the original totals. -/
def batch_node_autoscaling (fuel : ℕ) (pending_pods : List PodK) (batch_nodes : List NodeP)
    (S : ℕ) (vm_flavors : List Flavor) : List Flavor :=
  let total_cpu := totalCpu pending_pods
  let total_mem := totalMem pending_pods
  let zero_bin_nodes := batch_nodes.filter (isZeroBin S)
  let total_cpu := total_cpu - (zero_bin_nodes.map NodeP.cpuCapacity).sum
  let total_mem := total_mem - (zero_bin_nodes.map NodeP.memoryCapacity).sum
  if total_cpu ≤ 0 ∧ total_mem ≤ 0 then []
  else greedy_autoscaling fuel pending_pods vm_flavors

/-- The behaviour claim C4 ascribes to batch_node_autoscaling, written from
the claim words: the greedy selector is started from the reduced totals. -/
def batch_node_autoscaling_claimed (fuel : ℕ) (pending_pods : List PodK)
    (batch_nodes : List NodeP) (S : ℕ) (vm_flavors : List Flavor) : List Flavor :=
  let zero_bin_nodes := batch_nodes.filter (isZeroBin S)
  let tc := totalCpu pending_pods - (zero_bin_nodes.map NodeP.cpuCapacity).sum
  let tm := totalMem pending_pods - (zero_bin_nodes.map NodeP.memoryCapacity).sum
  if tc ≤ 0 ∧ tm ≤ 0 then [] else greedyLoop vm_flavors fuel tc tm

/-- The VM_FLAVORS catalog of autoscaler.py. -/
def eMicro : Flavor := { name := "e2-micro", cpu := 2, memory := 1, price := 0.0060 }

def eStd2 : Flavor := { name := "e2-standard-2", cpu := 2, memory := 8, price := 0.0686 }

def VM_FLAVORS : List Flavor := [eMicro, eStd2]

theorem greedyLoop_succ (vm_flavors : List Flavor) (fuel : ℕ) (tc tm : ℚ) :
    greedyLoop vm_flavors (fuel + 1) tc tm =
      if tc > 0 ∨ tm > 0 then
        match pickBest vm_flavors tc tm with
        | none => []
        | some best => best :: greedyLoop vm_flavors fuel (tc - best.cpu) (tm - best.memory)
      else [] := rfl

/-- Claim C10: a batch node profile without a runtime field defaults to
scaling_cycle in both consumers, so the packer places it in bin 1 (not the
fresh bin 0) and the autoscaler zero-bin subtraction excludes it. -/
theorem claim_C10_missing_runtime_defaults (n : NodeP) (S : ℕ)
    (hS : 0 < S) (hn : n.runtime = none) :
    nodeBin S n = 1 ∧ isZeroBin S n = false := by
  constructor
  · unfold nodeBin
    rw [hn]
    simp [Nat.div_self hS]
  · unfold isZeroBin
    rw [hn]
    simp

def runtimelessNode : NodeP :=
  { instanceName := "gke-batch-pool-n7", cpuCapacity := 2000, memoryCapacity := 8192,
    cpuAvailable := 2, memoryAvailable := 8192, runtime := none }

theorem claim_C10_witness :
    0 < 300 ∧ runtimelessNode.runtime = none
      ∧ (nodeBin 300 runtimelessNode = 1 ∧ isZeroBin 300 runtimelessNode = false) :=
  ⟨by decide, rfl, claim_C10_missing_runtime_defaults runtimelessNode 300 (by decide) rfl⟩

theorem greedyLoop_step (vm : List Flavor) (m' m : ℕ) (tc tm tc2 tm2 : ℚ) (b : Flavor)
    (hm : m' = m + 1) (hpos : tc > 0 ∨ tm > 0) (hpick : pickBest vm tc tm = some b)
    (h2 : tc - b.cpu = tc2) (h3 : tm - b.memory = tm2) :
    greedyLoop vm m' tc tm = b :: greedyLoop vm m tc2 tm2 := by
  subst hm h2 h3
  rw [greedyLoop_succ, if_pos hpos, hpick]

theorem greedyLoop_stop (vm : List Flavor) (m' m : ℕ) (tc tm : ℚ)
    (hm : m' = m + 1) (hpick : pickBest vm tc tm = none) :
    greedyLoop vm m' tc tm = [] := by
  subst hm
  rw [greedyLoop_succ]
  by_cases h : tc > 0 ∨ tm > 0
  · rw [if_pos h, hpick]
  · rw [if_neg h]

theorem pickBest_4_16 : pickBest VM_FLAVORS 4 16 = some eMicro := by
  norm_num [pickBest, VM_FLAVORS, calculate_score, eMicro, eStd2, min_def]

theorem pickBest_2_15 : pickBest VM_FLAVORS 2 15 = some eMicro := by
  norm_num [pickBest, VM_FLAVORS, calculate_score, eMicro, eStd2, min_def]

theorem pickBest_0_14 : pickBest VM_FLAVORS 0 14 = some eMicro := by
  norm_num [pickBest, VM_FLAVORS, calculate_score, eMicro, eStd2, min_def]

theorem pickBest_n2_13 : pickBest VM_FLAVORS (-2) 13 = some eMicro := by
  norm_num [pickBest, VM_FLAVORS, calculate_score, eMicro, eStd2, min_def]

theorem pickBest_n4_12 : pickBest VM_FLAVORS (-4) 12 = none := by
  norm_num [pickBest, VM_FLAVORS, calculate_score, eMicro, eStd2, min_def]

theorem pickBest_2_8 : pickBest VM_FLAVORS 2 8 = some eMicro := by
  norm_num [pickBest, VM_FLAVORS, calculate_score, eMicro, eStd2, min_def]

theorem pickBest_0_7 : pickBest VM_FLAVORS 0 7 = some eMicro := by
  norm_num [pickBest, VM_FLAVORS, calculate_score, eMicro, eStd2, min_def]

theorem pickBest_n2_6 : pickBest VM_FLAVORS (-2) 6 = some eMicro := by
  norm_num [pickBest, VM_FLAVORS, calculate_score, eMicro, eStd2, min_def]

theorem pickBest_n4_5 : pickBest VM_FLAVORS (-4) 5 = none := by
  norm_num [pickBest, VM_FLAVORS, calculate_score, eMicro, eStd2, min_def]

/-- The greedy run on unmet demand (4 cpu, 16 GiB): four e2-micro picks
bring the totals to (-4, 12), then every flavor scores below the initial
best_score of -1, best stays None and the loop breaks with memory demand
still positive.  Stated for every fuel at least 5, so the fuel parameter of
the embedding does not matter. -/
theorem greedy_4_16 (k : ℕ) :
    greedyLoop VM_FLAVORS (k + 5) 4 16 = [eMicro, eMicro, eMicro, eMicro] := by
  rw [greedyLoop_step VM_FLAVORS (k+5) (k+4) 4 16 2 15 eMicro rfl (by norm_num) pickBest_4_16
        (by norm_num [eMicro]) (by norm_num [eMicro]),
      greedyLoop_step VM_FLAVORS (k+4) (k+3) 2 15 0 14 eMicro rfl (by norm_num) pickBest_2_15
        (by norm_num [eMicro]) (by norm_num [eMicro]),
      greedyLoop_step VM_FLAVORS (k+3) (k+2) 0 14 (-2) 13 eMicro rfl (by norm_num) pickBest_0_14
        (by norm_num [eMicro]) (by norm_num [eMicro]),
      greedyLoop_step VM_FLAVORS (k+2) (k+1) (-2) 13 (-4) 12 eMicro rfl (by norm_num)
        pickBest_n2_13 (by norm_num [eMicro]) (by norm_num [eMicro]),
      greedyLoop_stop VM_FLAVORS (k+1) k (-4) 12 rfl pickBest_n4_12]

/-- The greedy run on the zero-bin-reduced demand (2 cpu, 8 GiB): three
e2-micro picks, then the break. -/
theorem greedy_2_8 (k : ℕ) :
    greedyLoop VM_FLAVORS (k + 4) 2 8 = [eMicro, eMicro, eMicro] := by
  rw [greedyLoop_step VM_FLAVORS (k+4) (k+3) 2 8 0 7 eMicro rfl (by norm_num) pickBest_2_8
        (by norm_num [eMicro]) (by norm_num [eMicro]),
      greedyLoop_step VM_FLAVORS (k+3) (k+2) 0 7 (-2) 6 eMicro rfl (by norm_num) pickBest_0_7
        (by norm_num [eMicro]) (by norm_num [eMicro]),
      greedyLoop_step VM_FLAVORS (k+2) (k+1) (-2) 6 (-4) 5 eMicro rfl (by norm_num) pickBest_n2_6
        (by norm_num [eMicro]) (by norm_num [eMicro]),
      greedyLoop_stop VM_FLAVORS (k+1) k (-4) 5 rfl pickBest_n4_5]

/-- Claim C3 counterexample: on unmet demand (4 cpu, 16 GiB) the greedy
selector does not return [e2-standard-2, e2-standard-2]. -/
theorem claim_C3_counterexample :
    greedyLoop VM_FLAVORS 1000 4 16 ≠ [eStd2, eStd2] := by
  have h : greedyLoop VM_FLAVORS 1000 4 16 = [eMicro, eMicro, eMicro, eMicro] := greedy_4_16 995
  rw [h]
  intro hc
  have := congrArg List.length hc
  simp at this

/-- Claim C3 amended: on unmet demand (4 cpu, 16 GiB) the greedy selector
returns [e2-micro, e2-micro, e2-micro, e2-micro], terminating through the
best-is-None break (all scores drop below the initial best_score of -1 once
remaining cpu reaches -4) while 12 GiB of memory demand is still unmet. -/
theorem claim_C3_greedy_scenario (k : ℕ) :
    greedyLoop VM_FLAVORS (k + 5) 4 16 = [eMicro, eMicro, eMicro, eMicro] :=
  greedy_4_16 k

def podDemand : PodK :=
  { name := "bp1", phase := "Pending", schedulerName := "htas-scheduler",
    workloadLabel := some "batch", runtime := none, cpuReq := 4, memReq := 16 }

def zeroBinNode : NodeP :=
  { instanceName := "gke-batch-pool-f1", cpuCapacity := 2, memoryCapacity := 8,
    cpuAvailable := 2, memoryAvailable := 8, runtime := some 100 }

theorem totalCpu_podDemand : totalCpu [podDemand] = 4 := by
  simp [totalCpu, podDemand]

theorem totalMem_podDemand : totalMem [podDemand] = 16 := by
  simp [totalMem, podDemand]

theorem batch_code_run :
    batch_node_autoscaling 1000 [podDemand] [zeroBinNode] 300 VM_FLAVORS
      = [eMicro, eMicro, eMicro, eMicro] := by
  norm_num [batch_node_autoscaling, greedy_autoscaling, isZeroBin, zeroBinNode,
    totalCpu, totalMem, podDemand]
  exact greedy_4_16 995

theorem batch_claimed_run :
    batch_node_autoscaling_claimed 1000 [podDemand] [zeroBinNode] 300 VM_FLAVORS
      = [eMicro, eMicro, eMicro] := by
  norm_num [batch_node_autoscaling_claimed, isZeroBin, zeroBinNode,
    totalCpu, totalMem, podDemand]
  exact greedy_2_8 996

/-- Claim C4 counterexample: with one pending batch pod requesting
(4 cpu, 16 GiB) and one zero-bin batch node of capacity (2 cpu, 8 GiB), the
reduced totals (2, 8) are not both nonpositive, and batch_node_autoscaling
returns the greedy result for the original totals (4, 16) - four e2-micro -
not the greedy result for the reduced totals, which would be three
e2-micro. -/
theorem claim_C4_counterexample :
    batch_node_autoscaling 1000 [podDemand] [zeroBinNode] 300 VM_FLAVORS
      = greedyLoop VM_FLAVORS 1000 4 16
    ∧ batch_node_autoscaling 1000 [podDemand] [zeroBinNode] 300 VM_FLAVORS
      ≠ batch_node_autoscaling_claimed 1000 [podDemand] [zeroBinNode] 300 VM_FLAVORS := by
  constructor
  · rw [batch_code_run]
    exact (greedy_4_16 995).symm
  · rw [batch_code_run, batch_claimed_run]
    intro hc
    have := congrArg List.length hc
    simp at this

/-- Claim C4 amended: the autoscaler subtracts the capacities of exactly
the batch nodes with runtime-age (defaulted to scaling_cycle) strictly
below scaling_cycle, and uses the reduced totals only for the skip test: if
both reduced totals are nonpositive no flavor is selected, and otherwise
the greedy selector runs from the original unsubtracted totals recomputed
from the pending pods. -/
theorem claim_C4_zero_bin_skip_only (fuel : ℕ) (pending_pods : List PodK)
    (batch_nodes : List NodeP) (S : ℕ) (vm_flavors : List Flavor) :
    (∀ n, n ∈ batch_nodes.filter (isZeroBin S) ↔ n ∈ batch_nodes ∧ n.runtime.getD S < S)
    ∧ batch_node_autoscaling fuel pending_pods batch_nodes S vm_flavors
      = (if totalCpu pending_pods
             - ((batch_nodes.filter (isZeroBin S)).map NodeP.cpuCapacity).sum ≤ 0
           ∧ totalMem pending_pods
             - ((batch_nodes.filter (isZeroBin S)).map NodeP.memoryCapacity).sum ≤ 0
         then []
         else greedyLoop vm_flavors fuel (totalCpu pending_pods) (totalMem pending_pods)) := by
  refine ⟨?_, rfl⟩
  intro n
  rw [List.mem_filter]
  simp [isZeroBin]

def charsStartWith : List Char → List Char → Bool
  | [], _ => true
  | _ :: _, [] => false
  | a :: as, b :: bs => a == b && charsStartWith as bs

def charsContain (pat : List Char) : List Char → Bool
  | [] => charsStartWith pat []
  | c :: cs => charsStartWith pat (c :: cs) || charsContain pat cs

/-- The Python substring test `pat in s`. -/
def strContains (s pat : String) : Bool :=
  charsContain pat.toList s.toList

/-- The Python str.lower(), on the character list of the string. -/
def lowerString (s : String) : String :=
  String.mk (s.data.map Char.toLower)

/-- An AutoScaleRequest spec (htas.cloud/v1). -/
structure ASRSpec where
  name : String
  workloadType : String
  podNames : List String
deriving DecidableEq

/-- What one autoscale_loop pass over one request did: the flavors the
selector asked for, whether the resize was attempted and how the cloud call
came out, and whether the loop issued the delete of the request. -/
structure CycleOutcome where
  vmsNeeded : List Flavor
  resizeAttempted : Bool
  resizeSucceeded : Bool
  requestDeleted : Bool
deriving DecidableEq

/-- The pods named by the request that still resolve and are Pending
(autoscale_loop lines 188-200; a pod whose read fails is skipped). -/
def resolvePending (readPod : String → Option PodK) (req : ASRSpec) : List PodK :=
  req.podNames.filterMap (fun nm =>
    (readPod nm).bind (fun pod => if pod.phase = "Pending" then some pod else none))

/-- One AutoScaleRequest processed by autoscale_loop (autoscaler.py lines
186-232).  resizeOk is the environment outcome of the GCP setSize call made
inside scale_gke_node_pool; that function catches every exception and
returns nothing, so the outcome reaches no caller, and the loop then issues
the delete of the request unconditionally.  When no named pod is still
Pending the loop continues without deleting. -/
def autoscale_process_request (readPod : String → Option PodK) (profile_items : List NodeP)
    (resizeOk : Bool) (fuel : ℕ) (req : ASRSpec) : CycleOutcome :=
  let pending := resolvePending readPod req
  if pending = [] then
    { vmsNeeded := [], resizeAttempted := false, resizeSucceeded := false,
      requestDeleted := false }
  else
    let vms :=
      if lowerString req.workloadType = "long-running" then
        greedy_autoscaling fuel pending VM_FLAVORS
      else
        batch_node_autoscaling fuel pending
          (profile_items.filter (fun n => strContains (lowerString n.instanceName) "batch"))
          300 VM_FLAVORS
    { vmsNeeded := vms, resizeAttempted := true, resizeSucceeded := resizeOk,
      requestDeleted := true }

def asrDemo : ASRSpec :=
  { name := "asr-1700000000-batch", workloadType := "batch", podNames := ["bp1"] }

def readPodDemo : String → Option PodK :=
  fun nm => if nm = "bp1" then some podDemand else none

theorem resolvePending_demo : resolvePending readPodDemo asrDemo = [podDemand] := by
  simp [resolvePending, readPodDemo, asrDemo, podDemand]

theorem batch_no_nodes_run :
    batch_node_autoscaling 1000 [podDemand] [] 300 VM_FLAVORS
      = [eMicro, eMicro, eMicro, eMicro] := by
  norm_num [batch_node_autoscaling, greedy_autoscaling, isZeroBin, totalCpu, totalMem, podDemand]
  exact greedy_4_16 995

theorem process_demo :
    autoscale_process_request readPodDemo [] false 1000 asrDemo
      = { vmsNeeded := [eMicro, eMicro, eMicro, eMicro], resizeAttempted := true,
          resizeSucceeded := false, requestDeleted := true } := by
  rw [autoscale_process_request]
  rw [resolvePending_demo]
  rw [if_neg (by simp)]
  rw [if_neg (by decide)]
  simp only [List.filter_nil]
  rw [batch_no_nodes_run]

/-- Claim C5 counterexample: a request naming one still-Pending batch pod,
processed in a cycle whose node-pool resize fails (resizeOk = false) and
whose zero-bin subtraction does not zero the totals (four flavors are
needed), is deleted anyway: the delete of the AutoScaleRequest is issued
regardless of the provisioning outcome. -/
theorem claim_C5_counterexample :
    (autoscale_process_request readPodDemo [] false 1000 asrDemo).requestDeleted = true
    ∧ (autoscale_process_request readPodDemo [] false 1000 asrDemo).resizeSucceeded = false
    ∧ (autoscale_process_request readPodDemo [] false 1000 asrDemo).vmsNeeded ≠ [] := by
  rw [process_demo]
  refine ⟨rfl, rfl, by simp⟩

/-- Claim C5 amended: after one Autoscaler cycle processes request R, R is
deleted exactly when at least one pod it names still resolves to a Pending
pod; the deletion decision is independent of the resize outcome, so a
failed provisioning does not leave R in place. -/
theorem claim_C5_delete_unconditional (readPod : String → Option PodK)
    (profile_items : List NodeP) (resizeOk : Bool) (fuel : ℕ) (req : ASRSpec) :
    ((autoscale_process_request readPod profile_items resizeOk fuel req).requestDeleted = true
      ↔ resolvePending readPod req ≠ [])
    ∧ (autoscale_process_request readPod profile_items resizeOk fuel req).requestDeleted
      = (autoscale_process_request readPod profile_items true fuel req).requestDeleted := by
  unfold autoscale_process_request
  by_cases h : resolvePending readPod req = []
  · simp [h]
  · simp [h]

structure ContainerR where
  cpuReq : ℚ
  memReq : ℚ
deriving DecidableEq

structure PodOnNode where
  phase : String
  containers : List ContainerR
deriving DecidableEq

/-- A node as the Resource Profiler reads it: capacity, allocatable and the
pods placed on it. -/
structure NodeInfo where
  name : String
  instanceTypeLabel : String
  capacityCpu : ℚ
  allocatableCpu : ℚ
  allocatableMem : ℚ
  pods : List PodOnNode
deriving DecidableEq

/-- used_cpu of update_node_profiles: the summed cpu requests of the
containers of Running pods on the node. -/
def usedCpu (n : NodeInfo) : ℚ :=
  ((n.pods.filter (fun p => decide (p.phase = "Running"))).map
    (fun p => (p.containers.map ContainerR.cpuReq).sum)).sum

def usedMem (n : NodeInfo) : ℚ :=
  ((n.pods.filter (fun p => decide (p.phase = "Running"))).map
    (fun p => (p.containers.map ContainerR.memReq).sum)).sum

/-- The NodeProfile body update_node_profiles builds each reconcile
(resource_profiler.py lines 38-51): cpuCapacity is the node capacity in
millicores, memoryCapacity is assigned the computed memory_available (the
source sets both fields from the same variable), availability is
allocatable minus the requests of Running pods with no clamping, and
runtime is the literal 0. -/
def update_node_profiles_body (n : NodeInfo) : NodeP :=
  { instanceName := n.name
  , cpuCapacity := (Int.floor (n.capacityCpu * 1000) : ℚ)
  , memoryCapacity := n.allocatableMem - usedMem n
  , cpuAvailable := n.allocatableCpu - usedCpu n
  , memoryAvailable := n.allocatableMem - usedMem n
  , runtime := some 0 }

/-- The upsert of update_node_profiles: replace when a profile exists,
create otherwise; either way the stored object becomes the freshly built
body.  The argument records the previously stored profile, which the
source never reads. -/
def update_node_profiles_upsert (n : NodeInfo) (_existing : Option NodeP) : NodeP :=
  update_node_profiles_body n

def staleProfile : NodeP :=
  { instanceName := "gke-batch-pool-n1", cpuCapacity := 4000, memoryCapacity := 16000,
    cpuAvailable := 4, memoryAvailable := 16000, runtime := some 500 }

def nodeOne : NodeInfo :=
  { name := "gke-batch-pool-n1", instanceTypeLabel := "e2-standard-2", capacityCpu := 4,
    allocatableCpu := 4, allocatableMem := 16000, pods := [] }

/-- Claim C6 (code bug): the profiler upsert does not leave runtime-age
unchanged.  Whatever the stored profile holds - here 500 - the replacement
body carries runtime = 0, so the field is rewritten on every reconcile,
for every node and every previously stored value. -/
theorem claim_C6_profiler_overwrites_runtime :
    staleProfile.runtime = some 500
    ∧ (update_node_profiles_upsert nodeOne (some staleProfile)).runtime = some 0
    ∧ (update_node_profiles_upsert nodeOne (some staleProfile)).runtime ≠ staleProfile.runtime
    ∧ ∀ (n : NodeInfo) (e1 e2 : Option NodeP),
        update_node_profiles_upsert n e1 = update_node_profiles_upsert n e2
        ∧ (update_node_profiles_upsert n e1).runtime = some 0 :=
  ⟨rfl, rfl, by decide, fun n e1 e2 => ⟨rfl, rfl⟩⟩

def overloadedNode : NodeInfo :=
  { name := "gke-batch-pool-n2", instanceTypeLabel := "e2-micro", capacityCpu := 4,
    allocatableCpu := 4, allocatableMem := 900,
    pods := [{ phase := "Running", containers := [{ cpuReq := 5, memReq := 1000 }] }] }

theorem usedCpu_overloaded : usedCpu overloadedNode = 5 := by
  simp [usedCpu, overloadedNode]

theorem usedMem_overloaded : usedMem overloadedNode = 1000 := by
  simp [usedMem, overloadedNode]

/-- Claim C7 counterexample: a node with 4 allocatable cores and 900 MiB of
allocatable memory carrying one Running pod that requests 5 cores and 1000
MiB receives a NodeProfile with cpuAvailable = -1 and memoryAvailable =
-100: the profiler computes allocatable minus used with no clamp at 0, so
the claimed invariant 0 <= available fails. -/
theorem claim_C7_counterexample :
    (update_node_profiles_body overloadedNode).cpuAvailable < 0
    ∧ (update_node_profiles_body overloadedNode).memoryAvailable < 0 := by
  constructor
  · show overloadedNode.allocatableCpu - usedCpu overloadedNode < 0
    rw [usedCpu_overloaded]
    norm_num [overloadedNode]
  · show overloadedNode.allocatableMem - usedMem overloadedNode < 0
    rw [usedMem_overloaded]
    norm_num [overloadedNode]

/-- Claim C7 amended: the profiler computes availability as allocatable
minus the summed requests of Running pods without clamping at 0, so the
lower bound 0 <= available holds exactly when the running requests do not
exceed allocatable; and because the source assigns the computed memory
availability to memoryCapacity as well, memoryAvailable = memoryCapacity on
every written profile. -/
theorem claim_C7_no_clamp (n : NodeInfo) :
    (update_node_profiles_body n).cpuAvailable = n.allocatableCpu - usedCpu n
    ∧ (update_node_profiles_body n).memoryAvailable = n.allocatableMem - usedMem n
    ∧ (update_node_profiles_body n).memoryAvailable = (update_node_profiles_body n).memoryCapacity
    ∧ (0 ≤ (update_node_profiles_body n).cpuAvailable ↔ usedCpu n ≤ n.allocatableCpu)
    ∧ (0 ≤ (update_node_profiles_body n).memoryAvailable ↔ usedMem n ≤ n.allocatableMem) := by
  refine ⟨rfl, rfl, rfl, ?_, ?_⟩
  · show 0 ≤ n.allocatableCpu - usedCpu n ↔ _
    exact sub_nonneg
  · show 0 ≤ n.allocatableMem - usedMem n ↔ _
    exact sub_nonneg

/-- The outcomes of the six externally fallible steps of migrate_container,
in source order: the criu dump on the source (run with leave-running), the
kubectl cp out, the replica pod creation, the kubectl cp into the replica,
the criu restore, and the final delete of the original pod. -/
structure MigEnv where
  checkpointOk : Bool
  copyOutOk : Bool
  createReplicaOk : Bool
  copyInOk : Bool
  restoreOk : Bool
  deleteOrigOk : Bool
deriving DecidableEq

structure MigResult where
  success : Bool
  originalDeleted : Bool
  replicaCreated : Bool
deriving DecidableEq

/-- migrate_container (instance_cleaner.py lines 106-168): the six steps
run in order inside one try block; the first failing step raises, the
except branch returns False, and no later step runs.  The delete of the
original pod is the last step, so it runs only after the restore in the
replica succeeded. -/
def migrate_container (e : MigEnv) : MigResult :=
  if e.checkpointOk then
    if e.copyOutOk then
      if e.createReplicaOk then
        if e.copyInOk then
          if e.restoreOk then
            if e.deleteOrigOk then
              { success := true, originalDeleted := true, replicaCreated := true }
            else { success := false, originalDeleted := false, replicaCreated := true }
          else { success := false, originalDeleted := false, replicaCreated := true }
        else { success := false, originalDeleted := false, replicaCreated := true }
      else { success := false, originalDeleted := false, replicaCreated := false }
    else { success := false, originalDeleted := false, replicaCreated := false }
  else { success := false, originalDeleted := false, replicaCreated := false }

/-- Claim C8: migration is atomic with respect to the original task.
The original pod is deleted only when checkpoint, copy out, replica
creation, copy in and restore all succeeded (and then the run reports
success), and a failure of any of those steps leaves the original pod
undeleted - still Running on its source node, since the checkpoint runs
with the leave-running flag - and the run reports failure. -/
theorem claim_C8_migration_atomic (e : MigEnv) :
    ((migrate_container e).originalDeleted = true →
      e.checkpointOk = true ∧ e.copyOutOk = true ∧ e.createReplicaOk = true
        ∧ e.copyInOk = true ∧ e.restoreOk = true ∧ e.deleteOrigOk = true)
    ∧ ((e.checkpointOk = false ∨ e.copyOutOk = false ∨ e.createReplicaOk = false
        ∨ e.copyInOk = false ∨ e.restoreOk = false) →
      (migrate_container e).originalDeleted = false
        ∧ (migrate_container e).success = false) := by
  cases e with
  | mk c1 c2 c3 c4 c5 c6 =>
    cases c1 <;> cases c2 <;> cases c3 <;> cases c4 <;> cases c5 <;> cases c6 <;>
      simp [migrate_container]

/-- The actions one Task Packer cycle issues: a Binding of a pod to a node,
or an AutoScaleRequest carrying a workload type and pod names. -/
inductive PackAction where
  | bind (podName nodeName : String)
  | autoscale (workloadType : String) (podNames : List String)
deriving DecidableEq

/-- pod_labels.get("workload-type", "batch").lower() of schedule_pods. -/
def podWorkloadType (p : PodK) : String :=
  lowerString (p.workloadLabel.getD "batch")

/-- The algorithm selection of schedule_pods: BFD for long-running pods,
Time-Bin BFD for batch pods and for any other label value. -/
def selectTarget (long_running_nodes batch_nodes : List NodeP) (S : ℕ) (p : PodK) :
    Option String :=
  if podWorkloadType p = "long-running" then bfd_algorithm p long_running_nodes
  else time_bin_bfd p batch_nodes S

/-- The per-pod step of schedule_pods: bind to the candidate when one
exists, otherwise trigger_autoscaling for this pod's workload type with the
singleton pod name list. -/
def packPod (long_running_nodes batch_nodes : List NodeP) (S : ℕ) (p : PodK) : PackAction :=
  match selectTarget long_running_nodes batch_nodes S p with
  | some nodeName => PackAction.bind p.name nodeName
  | none => PackAction.autoscale (podWorkloadType p) [p.name]

/-- get_pending_pods: Pending phase and the htas-scheduler tag. -/
def pendingEligible (pods : List PodK) : List PodK :=
  pods.filter (fun p =>
    decide (p.phase = "Pending") && decide (p.schedulerName = "htas-scheduler"))

/-- The long-running node partition of schedule_pods ("longrunning" in the
lowercased instance name). -/
def longRunningNodesOf (profiles : List NodeP) : List NodeP :=
  profiles.filter (fun n => strContains (lowerString n.instanceName) "longrunning")

/-- The batch node partition of schedule_pods (the elif branch: "batch" in
the lowercased instance name, not already a long-running node). -/
def batchNodesOf (profiles : List NodeP) : List NodeP :=
  profiles.filter (fun n =>
    !strContains (lowerString n.instanceName) "longrunning"
      && strContains (lowerString n.instanceName) "batch")

/-- One cycle of schedule_pods (task_packer.py lines 184-237), as the list
of API actions it issues, one per pending eligible pod. -/
def schedule_pods_cycle (pods : List PodK) (profiles : List NodeP) : List PackAction :=
  (pendingEligible pods).map
    (packPod (longRunningNodesOf profiles) (batchNodesOf profiles) 300)

/-- Claim C9: after one Task Packer cycle, every Pending pod carrying the
htas-scheduler tag is either bound to some node or named in an
AutoScaleRequest for its workload class: the cycle issues, for each such
pod, either a Binding action or an autoscale action whose pod name list
contains the pod. -/
theorem claim_C9_bound_or_escalated (pods : List PodK) (profiles : List NodeP) (p : PodK)
    (hp : p ∈ pods) (hphase : p.phase = "Pending")
    (hsched : p.schedulerName = "htas-scheduler") :
    (∃ nodeName, PackAction.bind p.name nodeName ∈ schedule_pods_cycle pods profiles)
    ∨ (∃ names, PackAction.autoscale (podWorkloadType p) names ∈ schedule_pods_cycle pods profiles
        ∧ p.name ∈ names) := by
  have hpe : p ∈ pendingEligible pods := by
    rw [pendingEligible, List.mem_filter]
    refine ⟨hp, ?_⟩
    simp [hphase, hsched]
  cases htar : selectTarget (longRunningNodesOf profiles) (batchNodesOf profiles) 300 p with
  | some nodeName =>
    refine Or.inl ⟨nodeName, ?_⟩
    have hpp : packPod (longRunningNodesOf profiles) (batchNodesOf profiles) 300 p
        = PackAction.bind p.name nodeName := by
      unfold packPod
      rw [htar]
    rw [← hpp]
    exact List.mem_map_of_mem _ hpe
  | none =>
    refine Or.inr ⟨[p.name], ?_, List.mem_singleton_self _⟩
    have hpp : packPod (longRunningNodesOf profiles) (batchNodesOf profiles) 300 p
        = PackAction.autoscale (podWorkloadType p) [p.name] := by
      unfold packPod
      rw [htar]
    rw [← hpp]
    exact List.mem_map_of_mem _ hpe

theorem claim_C9_witness :
    podDemand ∈ [podDemand] ∧ podDemand.phase = "Pending"
    ∧ podDemand.schedulerName = "htas-scheduler"
    ∧ ((∃ nodeName, PackAction.bind podDemand.name nodeName
          ∈ schedule_pods_cycle [podDemand] [])
      ∨ (∃ names, PackAction.autoscale (podWorkloadType podDemand) names
          ∈ schedule_pods_cycle [podDemand] [] ∧ podDemand.name ∈ names)) :=
  ⟨List.mem_singleton_self _, rfl, rfl,
    claim_C9_bound_or_escalated [podDemand] [] podDemand (List.mem_singleton_self _) rfl rfl⟩

end HTAS
